import Mathlib

/-!
Verification of the Telco customer-churn feature-engineering pipeline.

Shallow embedding of the two implementations of the feature transform:
* `Batch` — the batch script `02_scientific_feature_engineering.py`, which
  operates on a whole dataframe (some of its features depend on the other
  rows of the dataset; those take the dataset as an explicit argument, and
  pandas `.map` without `fillna` is modelled with `Option`, `none` standing
  for NaN);
* `Dash` — the dashboard class `ChurnPredictor` in `app_vl_analytics.py`
  (`engineer_features` / `prepare_features_for_model`), which works on a
  single customer record.

Monetary fields and tenure are modelled as exact rationals; the only
transcendental feature, `TenureRisk = exp(-tenure/12)` (and the composite
`ChurnRiskScore` built from it), is modelled over the reals with `Real.exp`.
-/

/-- One raw customer record: the fixed set of named input attributes of the
Telco dataset (identity column dropped; `SeniorCitizen` is a 0/1 integer,
`tenure` a month count, the two charges monetary amounts). -/
structure CustomerRecord where
  gender : String
  SeniorCitizen : ℚ
  Partner : String
  Dependents : String
  tenure : ℚ
  PhoneService : String
  MultipleLines : String
  InternetService : String
  OnlineSecurity : String
  OnlineBackup : String
  DeviceProtection : String
  TechSupport : String
  StreamingTV : String
  StreamingMovies : String
  Contract : String
  PaperlessBilling : String
  PaymentMethod : String
  MonthlyCharges : ℚ
  TotalCharges : ℚ
deriving DecidableEq

/-- `(x == 'Yes').astype(int)` — the 0/1 indicator used throughout both
feature-engineering paths. -/
def yesInd (s : String) : ℚ := if s = "Yes" then 1 else 0

namespace Batch

/-! Features of `02_scientific_feature_engineering.py`.  The `.map` calls
without `fillna` produce NaN on unknown keys; NaN is modelled as `none`. -/

/-- `(df['Contract'] == 'Month-to-month').astype(int)` (line 35). -/
def IsMonthToMonth (r : CustomerRecord) : ℚ :=
  if r.Contract = "Month-to-month" then 1 else 0

/-- `df['Contract'].map({'Month-to-month': 0, 'One year': 0.5, 'Two year': 1})`
(lines 36-38); no `fillna`, so an unknown contract maps to NaN (`none`). -/
def ContractStability (c : String) : Option ℚ :=
  if c = "Month-to-month" then some 0
  else if c = "One year" then some 0.5
  else if c = "Two year" then some 1
  else none

/-- `(df['PaymentMethod'] == 'Electronic check').astype(int)` (line 41). -/
def IsElectronicCheck (r : CustomerRecord) : ℚ :=
  if r.PaymentMethod = "Electronic check" then 1 else 0

/-- `df['PaymentMethod'].map({...})` (lines 42-47); no `fillna`, so an
unknown payment method maps to NaN (`none`). -/
def PaymentStability (p : String) : Option ℚ :=
  if p = "Electronic check" then some 0
  else if p = "Mailed check" then some 0.33
  else if p = "Bank transfer (automatic)" then some 0.67
  else if p = "Credit card (automatic)" then some 1
  else none

/-- `FinancialRiskScore` (lines 50-54); NaN-propagating through
`PaymentStability`. -/
def FinancialRiskScore (r : CustomerRecord) : Option ℚ :=
  (PaymentStability r.PaymentMethod).map (fun ps =>
    IsMonthToMonth r * 0.427 + IsElectronicCheck r * 0.453 + (1 - ps) * 0.12)

/-- `df['TenureRisk'] = np.exp(-df['tenure'] / 12)` (line 60). -/
noncomputable def TenureRisk (r : CustomerRecord) : ℝ :=
  Real.exp (-(r.tenure : ℝ) / 12)

/-- `ProtectionScore` (lines 82-83): count of protection services equal to
"Yes". -/
def ProtectionScore (r : CustomerRecord) : ℚ :=
  yesInd r.OnlineSecurity + yesInd r.OnlineBackup +
    yesInd r.DeviceProtection + yesInd r.TechSupport

/-- `(df['ProtectionScore'] == 4).astype(int)` (line 84). -/
def FullyProtected (r : CustomerRecord) : ℚ :=
  if ProtectionScore r = 4 then 1 else 0

/-- `(df['ProtectionScore'] == 0).astype(int)` (line 85). -/
def NoProtection (r : CustomerRecord) : ℚ :=
  if ProtectionScore r = 0 then 1 else 0

/-- `ServiceVulnerability` (lines 88-91). -/
def ServiceVulnerability (r : CustomerRecord) : ℚ :=
  (if r.InternetService ≠ "No" then 1 else 0) * (1 - ProtectionScore r / 4)

/-- The two automatic payment methods used by `PaymentMethod.isin([...])`
(line 117). -/
def autoPayments : List String :=
  ["Bank transfer (automatic)", "Credit card (automatic)"]

/-- `DigitalAdoption` (lines 115-120): mean of four 0/1 indicators. -/
def DigitalAdoption (r : CustomerRecord) : ℚ :=
  (yesInd r.PaperlessBilling +
    (if r.PaymentMethod ∈ autoPayments then 1 else 0) +
    yesInd r.OnlineSecurity + yesInd r.OnlineBackup) / 4

/-- `df['UnstableCustomer'] = df['IsMonthToMonth'] * df['IsElectronicCheck']`
(line 146). -/
def UnstableCustomer (r : CustomerRecord) : ℚ :=
  IsMonthToMonth r * IsElectronicCheck r

/-- The batch composite `ChurnRiskScore` (lines 173-179), weights
0.35 / 0.25 / 0.20 / 0.10 / 0.10; NaN-propagating through
`FinancialRiskScore`. -/
noncomputable def ChurnRiskScore (r : CustomerRecord) : Option ℝ :=
  (FinancialRiskScore r).map (fun f =>
    (f : ℝ) * 0.35 + TenureRisk r * 0.25 + (ServiceVulnerability r : ℝ) * 0.2 +
      (1 - (DigitalAdoption r : ℝ)) * 0.1 + (UnstableCustomer r : ℝ) * 0.1)

/-- `df['ChargesPercentile'] = df['MonthlyCharges'].rank(pct=True)`
(line 162): the pandas average rank of the row's `MonthlyCharges` within the
whole dataset column, divided by the number of rows.  The dataset is an
explicit argument because the result depends on every row of it. -/
def ChargesPercentile (r : CustomerRecord) (ds : List CustomerRecord) : ℚ :=
  (((ds.filter (fun x => x.MonthlyCharges < r.MonthlyCharges)).length : ℚ) +
      (((ds.filter (fun x => x.MonthlyCharges = r.MonthlyCharges)).length : ℚ) + 1) / 2) /
    (ds.length : ℚ)

end Batch

namespace Dash

/-! Features of `ChurnPredictor.engineer_features` in `app_vl_analytics.py`
(lines 939-1119), computed on the single-row frame built from one customer
record. -/

/-- `(df['Contract'] == 'Month-to-month').astype(int)` (line 946). -/
def IsMonthToMonth (r : CustomerRecord) : ℚ :=
  if r.Contract = "Month-to-month" then 1 else 0

/-- `df['Contract'].map({...}).fillna(0)` (lines 947-949): unknown contract
values default to 0. -/
def ContractStability (c : String) : ℚ :=
  if c = "Month-to-month" then 0
  else if c = "One year" then 0.5
  else if c = "Two year" then 1
  else 0

/-- `(df['PaymentMethod'] == 'Electronic check').astype(int)` (line 951). -/
def IsElectronicCheck (r : CustomerRecord) : ℚ :=
  if r.PaymentMethod = "Electronic check" then 1 else 0

/-- `df['PaymentMethod'].map({...}).fillna(0)` (lines 952-957): unknown
payment methods default to 0. -/
def PaymentStability (p : String) : ℚ :=
  if p = "Electronic check" then 0
  else if p = "Mailed check" then 0.33
  else if p = "Bank transfer (automatic)" then 0.67
  else if p = "Credit card (automatic)" then 1
  else 0

/-- `FinancialRiskScore` (lines 959-963). -/
def FinancialRiskScore (r : CustomerRecord) : ℚ :=
  IsMonthToMonth r * 0.427 + IsElectronicCheck r * 0.453 +
    (1 - PaymentStability r.PaymentMethod) * 0.12

/-- `df['TenureRisk'] = np.exp(-df['tenure'] / 12)` (line 966). -/
noncomputable def TenureRisk (r : CustomerRecord) : ℝ :=
  Real.exp (-(r.tenure : ℝ) / 12)

/-- `(df['tenure'] <= 12).astype(int)` (line 967). -/
def IsNewCustomer (r : CustomerRecord) : ℚ :=
  if r.tenure ≤ 12 then 1 else 0

/-- `(df['tenure'] <= 3).astype(int)` (line 968). -/
def IsVeryNewCustomer (r : CustomerRecord) : ℚ :=
  if r.tenure ≤ 3 then 1 else 0

/-- The tenure-segment ladder (lines 971-981), encoded 0..4. -/
def TenureSegment (r : CustomerRecord) : ℚ :=
  if r.tenure ≤ 3 then 0
  else if r.tenure ≤ 12 then 1
  else if r.tenure ≤ 24 then 2
  else if r.tenure ≤ 48 then 3
  else 4

/-- `df['LifecycleValue'] = df['tenure'] * df['MonthlyCharges']` (line 983). -/
def LifecycleValue (r : CustomerRecord) : ℚ := r.tenure * r.MonthlyCharges

/-- `RevenueAcceleration` (line 984). -/
def RevenueAcceleration (r : CustomerRecord) : ℚ :=
  r.TotalCharges / (r.tenure + 1) - r.MonthlyCharges

/-- `(df['TechSupport'] == 'Yes').astype(int)` (line 987). -/
def HasTechSupport (r : CustomerRecord) : ℚ := yesInd r.TechSupport

/-- `(df['OnlineSecurity'] == 'Yes').astype(int)` (line 988). -/
def HasOnlineSecurity (r : CustomerRecord) : ℚ := yesInd r.OnlineSecurity

/-- `(df['OnlineBackup'] == 'Yes').astype(int)` (line 989). -/
def HasBackup (r : CustomerRecord) : ℚ := yesInd r.OnlineBackup

/-- `ProtectionScore` (lines 992-996): count of the four protection services
equal to "Yes". -/
def ProtectionScore (r : CustomerRecord) : ℚ :=
  yesInd r.OnlineSecurity + yesInd r.OnlineBackup +
    yesInd r.DeviceProtection + yesInd r.TechSupport

/-- `(df['ProtectionScore'] == 4).astype(int)` (line 998). -/
def FullyProtected (r : CustomerRecord) : ℚ :=
  if ProtectionScore r = 4 then 1 else 0

/-- `(df['ProtectionScore'] == 0).astype(int)` (line 999). -/
def NoProtection (r : CustomerRecord) : ℚ :=
  if ProtectionScore r = 0 then 1 else 0

/-- `ServiceVulnerability` (lines 1001-1004). -/
def ServiceVulnerability (r : CustomerRecord) : ℚ :=
  (if r.InternetService ≠ "No" then 1 else 0) * (1 - ProtectionScore r / 4)

/-- `ServiceCount` (lines 1007-1016): internet counts whenever not "No",
the other seven services when equal to "Yes". -/
def ServiceCount (r : CustomerRecord) : ℚ :=
  yesInd r.PhoneService + (if r.InternetService ≠ "No" then 1 else 0) +
    yesInd r.OnlineSecurity + yesInd r.OnlineBackup +
    yesInd r.DeviceProtection + yesInd r.TechSupport +
    yesInd r.StreamingTV + yesInd r.StreamingMovies

/-- `df['RevenuePerService'] = df['MonthlyCharges'] / (df['ServiceCount'] + 1)`
(line 1018). -/
def RevenuePerService (r : CustomerRecord) : ℚ :=
  r.MonthlyCharges / (ServiceCount r + 1)

/-- `avg_monthly_charges = 64.76` (line 1021). -/
def avgMonthlyCharges : ℚ := 64.76

/-- `df['PriceDeviation'] = df['MonthlyCharges'] - avg_monthly_charges`
(line 1022). -/
def PriceDeviation (r : CustomerRecord) : ℚ :=
  r.MonthlyCharges - avgMonthlyCharges

/-- `IsPriceSensitive` (lines 1023-1026). -/
def IsPriceSensitive (r : CustomerRecord) : ℚ :=
  if r.MonthlyCharges < avgMonthlyCharges ∧ ServiceCount r < 4 then 1 else 0

/-- `df['EstimatedMargin'] = df['MonthlyCharges'] * 0.3 - df['ServiceCount'] * 5`
(line 1028). -/
def EstimatedMargin (r : CustomerRecord) : ℚ :=
  r.MonthlyCharges * 0.3 - ServiceCount r * 5

/-- `df['CumulativeProfit'] = df['EstimatedMargin'] * df['tenure']`
(line 1029). -/
def CumulativeProfit (r : CustomerRecord) : ℚ :=
  EstimatedMargin r * r.tenure

/-- Whether the first character list is a prefix of the second. -/
def charsPrefix : List Char → List Char → Bool
  | [], _ => true
  | _ :: _, [] => false
  | a :: as, b :: bs => a == b && charsPrefix as bs

/-- Whether the first character list occurs inside the second. -/
def charsContain (sub : List Char) : List Char → Bool
  | [] => charsPrefix sub []
  | b :: bs => charsPrefix sub (b :: bs) || charsContain sub bs

/-- `df['PaymentMethod'].str.contains('automatic', na=False)` (line 1036):
true when "automatic" occurs as a substring. -/
def containsAutomatic (s : String) : Bool :=
  charsContain "automatic".data s.data

/-- `DigitalAdoption` (lines 1032-1038): thirds of the paperless-billing
flag, the automatic-payment flag and the online-backup flag. -/
def DigitalAdoption (r : CustomerRecord) : ℚ :=
  yesInd r.PaperlessBilling / 3 +
    (if containsAutomatic r.PaymentMethod then 1 else 0) / 3 +
    yesInd r.OnlineBackup / 3

/-- `IsStreamingUser` (lines 1040-1044). -/
def IsStreamingUser (r : CustomerRecord) : ℚ :=
  if r.StreamingTV = "Yes" ∨ r.StreamingMovies = "Yes" then 1 else 0

/-- `IsPureStreaming` (lines 1046-1048): bitwise and of the streaming flag
and the fiber-optic indicator. -/
def IsPureStreaming (r : CustomerRecord) : ℚ :=
  if IsStreamingUser r = 1 ∧ r.InternetService = "Fiber optic" then 1 else 0

/-- `ContractValueAlignment` (lines 1051-1054). -/
def ContractValueAlignment (r : CustomerRecord) : ℚ :=
  IsMonthToMonth r * (if r.MonthlyCharges > avgMonthlyCharges then 1 else 0)

/-- `df['RiskyNewCustomer'] = df['IsNewCustomer'] * df['IsMonthToMonth']`
(line 1056). -/
def RiskyNewCustomer (r : CustomerRecord) : ℚ :=
  IsNewCustomer r * IsMonthToMonth r

/-- `VulnerableHighValue` (lines 1058-1061). -/
def VulnerableHighValue (r : CustomerRecord) : ℚ :=
  if r.MonthlyCharges > 70 ∧ NoProtection r = 1 then 1 else 0

/-- `UnstableCustomer` (lines 1063-1067): mean of three 0/1 indicators —
different from the batch path's product of two indicators. -/
def UnstableCustomer (r : CustomerRecord) : ℚ :=
  (IsMonthToMonth r + IsElectronicCheck r + IsNewCustomer r) / 3

/-- `EarlyServiceOverload` (lines 1069-1071). -/
def EarlyServiceOverload (r : CustomerRecord) : ℚ :=
  if r.tenure < 6 ∧ ServiceCount r > 5 then 1 else 0

/-- `df['MonthlyCharges_ZScore'] = (df['MonthlyCharges'] - 64.76) / 30.09`
(line 1074): fixed reference constants, not recomputed statistics. -/
def MonthlyChargesZScore (r : CustomerRecord) : ℚ :=
  (r.MonthlyCharges - 64.76) / 30.09

/-- `df['TotalCharges_ZScore'] = (df['TotalCharges'] - 2283.30) / 2266.77`
(line 1075). -/
def TotalChargesZScore (r : CustomerRecord) : ℚ :=
  (r.TotalCharges - 2283.30) / 2266.77

/-- `np.clip(df['MonthlyCharges'] / 118.75, 0, 1)` (line 1077). -/
def ChargesPercentile (r : CustomerRecord) : ℚ :=
  min (max (r.MonthlyCharges / 118.75) 0) 1

/-- `np.clip(df['tenure'] / 72, 0, 1)` (line 1078). -/
def TenurePercentile (r : CustomerRecord) : ℚ :=
  min (max (r.tenure / 72) 0) 1

/-- `df['ExpectedTotalCharges'] = df['tenure'] * df['MonthlyCharges']`
(line 1081). -/
def ExpectedTotalCharges (r : CustomerRecord) : ℚ :=
  r.tenure * r.MonthlyCharges

/-- `ChargesConsistency` (lines 1082-1084). -/
def ChargesConsistency (r : CustomerRecord) : ℚ :=
  min (r.TotalCharges / (ExpectedTotalCharges r + 1)) 1

/-- The dashboard composite `ChurnRiskScore` (lines 1087-1093), weights
0.3 / 0.2 / 0.2 / 0.15 / 0.15. -/
noncomputable def ChurnRiskScore (r : CustomerRecord) : ℝ :=
  (FinancialRiskScore r : ℝ) * 0.3 + TenureRisk r * 0.2 +
    (ServiceVulnerability r : ℝ) * 0.2 + (UnstableCustomer r : ℝ) * 0.15 +
    (1 - (ProtectionScore r : ℝ) / 4) * 0.15

open Classical in
/-- The risk-category threshold ladder (lines 1096-1102). -/
noncomputable def RiskCategory (r : CustomerRecord) : ℤ :=
  if ChurnRiskScore r < 0.33 then 0
  else if ChurnRiskScore r < 0.66 then 1
  else 2

/-- `df['DataSegment'] = 1` (line 1105). -/
def DataSegment (_r : CustomerRecord) : ℚ := 1

/-- The segment-name ladder (lines 1108-1117), encoded 0..4; the
`IsNewCustomer` truthiness test is `IsNewCustomer == 1`. -/
def SegmentName (r : CustomerRecord) : ℚ :=
  if ServiceCount r ≤ 2 ∧ r.MonthlyCharges < 40 then 0
  else if ServiceCount r ≥ 6 then 1
  else if r.tenure > 48 then 2
  else if IsNewCustomer r = 1 ∧ r.MonthlyCharges < avgMonthlyCharges then 3
  else 4

end Dash

/-- The derived feature vector produced by the dashboard feature transform:
all scalar features added by `engineer_features`, as exact rationals.  The
three real-valued outputs — `TenureRisk`, `ChurnRiskScore` and
`RiskCategory`, which involve `np.exp` — are modelled by the separate
real-valued functions `Dash.TenureRisk`, `Dash.ChurnRiskScore` and
`Dash.RiskCategory` above. -/
structure FeatureVec where
  IsMonthToMonth : ℚ
  ContractStability : ℚ
  IsElectronicCheck : ℚ
  PaymentStability : ℚ
  FinancialRiskScore : ℚ
  IsNewCustomer : ℚ
  IsVeryNewCustomer : ℚ
  TenureSegment : ℚ
  LifecycleValue : ℚ
  RevenueAcceleration : ℚ
  HasTechSupport : ℚ
  HasOnlineSecurity : ℚ
  HasBackup : ℚ
  ProtectionScore : ℚ
  FullyProtected : ℚ
  NoProtection : ℚ
  ServiceVulnerability : ℚ
  ServiceCount : ℚ
  RevenuePerService : ℚ
  PriceDeviation : ℚ
  IsPriceSensitive : ℚ
  EstimatedMargin : ℚ
  CumulativeProfit : ℚ
  DigitalAdoption : ℚ
  IsStreamingUser : ℚ
  IsPureStreaming : ℚ
  ContractValueAlignment : ℚ
  RiskyNewCustomer : ℚ
  VulnerableHighValue : ℚ
  UnstableCustomer : ℚ
  EarlyServiceOverload : ℚ
  MonthlyChargesZScore : ℚ
  TotalChargesZScore : ℚ
  ChargesPercentile : ℚ
  TenurePercentile : ℚ
  ExpectedTotalCharges : ℚ
  ChargesConsistency : ℚ
  DataSegment : ℚ
  SegmentName : ℚ
deriving DecidableEq

namespace Dash

/-- `engineer_features` on a complete customer record: the full scalar
feature vector. -/
def engineerFeatures (r : CustomerRecord) : FeatureVec where
  IsMonthToMonth := IsMonthToMonth r
  ContractStability := ContractStability r.Contract
  IsElectronicCheck := IsElectronicCheck r
  PaymentStability := PaymentStability r.PaymentMethod
  FinancialRiskScore := FinancialRiskScore r
  IsNewCustomer := IsNewCustomer r
  IsVeryNewCustomer := IsVeryNewCustomer r
  TenureSegment := TenureSegment r
  LifecycleValue := LifecycleValue r
  RevenueAcceleration := RevenueAcceleration r
  HasTechSupport := HasTechSupport r
  HasOnlineSecurity := HasOnlineSecurity r
  HasBackup := HasBackup r
  ProtectionScore := ProtectionScore r
  FullyProtected := FullyProtected r
  NoProtection := NoProtection r
  ServiceVulnerability := ServiceVulnerability r
  ServiceCount := ServiceCount r
  RevenuePerService := RevenuePerService r
  PriceDeviation := PriceDeviation r
  IsPriceSensitive := IsPriceSensitive r
  EstimatedMargin := EstimatedMargin r
  CumulativeProfit := CumulativeProfit r
  DigitalAdoption := DigitalAdoption r
  IsStreamingUser := IsStreamingUser r
  IsPureStreaming := IsPureStreaming r
  ContractValueAlignment := ContractValueAlignment r
  RiskyNewCustomer := RiskyNewCustomer r
  VulnerableHighValue := VulnerableHighValue r
  EarlyServiceOverload := EarlyServiceOverload r
  UnstableCustomer := UnstableCustomer r
  MonthlyChargesZScore := MonthlyChargesZScore r
  TotalChargesZScore := TotalChargesZScore r
  ChargesPercentile := ChargesPercentile r
  TenurePercentile := TenurePercentile r
  ExpectedTotalCharges := ExpectedTotalCharges r
  ChargesConsistency := ChargesConsistency r
  DataSegment := DataSegment r
  SegmentName := SegmentName r

end Dash

/-- A customer record in which any raw attribute may be absent: the input
of the schema-sensitive version of the transform (`pd.DataFrame` built from
a dict that may omit keys). -/
structure CustomerRecordOpt where
  gender : Option String
  SeniorCitizen : Option ℚ
  Partner : Option String
  Dependents : Option String
  tenure : Option ℚ
  PhoneService : Option String
  MultipleLines : Option String
  InternetService : Option String
  OnlineSecurity : Option String
  OnlineBackup : Option String
  DeviceProtection : Option String
  TechSupport : Option String
  StreamingTV : Option String
  StreamingMovies : Option String
  Contract : Option String
  PaperlessBilling : Option String
  PaymentMethod : Option String
  MonthlyCharges : Option ℚ
  TotalCharges : Option ℚ
deriving DecidableEq

/-- View a complete record as a record with every attribute present. -/
def CustomerRecord.toOpt (r : CustomerRecord) : CustomerRecordOpt where
  gender := some r.gender
  SeniorCitizen := some r.SeniorCitizen
  Partner := some r.Partner
  Dependents := some r.Dependents
  tenure := some r.tenure
  PhoneService := some r.PhoneService
  MultipleLines := some r.MultipleLines
  InternetService := some r.InternetService
  OnlineSecurity := some r.OnlineSecurity
  OnlineBackup := some r.OnlineBackup
  DeviceProtection := some r.DeviceProtection
  TechSupport := some r.TechSupport
  StreamingTV := some r.StreamingTV
  StreamingMovies := some r.StreamingMovies
  Contract := some r.Contract
  PaperlessBilling := some r.PaperlessBilling
  PaymentMethod := some r.PaymentMethod
  MonthlyCharges := some r.MonthlyCharges
  TotalCharges := some r.TotalCharges

/-- An unguarded column access `df[name]`: raises a `KeyError` naming the
column when it is absent. -/
def req {α : Type} (name : String) (o : Option α) : Except String α :=
  match o with
  | some v => Except.ok v
  | none => Except.error name

/-- A guarded contribution `if name in df.columns: ... (df[name] == 'Yes')`:
an absent column silently contributes 0. -/
def optYes (o : Option String) : ℚ :=
  match o with
  | some s => yesInd s
  | none => 0

namespace Dash

/-- `engineer_features` with its column accesses made explicit: unguarded
accesses (`df['Contract']`, `df['PaymentMethod']`, `df['tenure']`,
`df['MonthlyCharges']`, `df['TotalCharges']`, `df['TechSupport']`,
`df['OnlineSecurity']`, `df['OnlineBackup']`, `df['InternetService']`, in
source order) abort with a `KeyError` naming the column, while the accesses
inside `if col in df.columns` guards (DeviceProtection, PhoneService,
StreamingTV, StreamingMovies, PaperlessBilling) silently contribute their
default when the column is absent.  The real-valued outputs (`TenureRisk`,
`ChurnRiskScore`, `RiskCategory`) use only columns already required here. -/
def engineerFeaturesE (ro : CustomerRecordOpt) : Except String FeatureVec := do
  let contract ← req "Contract" ro.Contract
  let payment ← req "PaymentMethod" ro.PaymentMethod
  let tenure ← req "tenure" ro.tenure
  let monthly ← req "MonthlyCharges" ro.MonthlyCharges
  let total ← req "TotalCharges" ro.TotalCharges
  let techSupport ← req "TechSupport" ro.TechSupport
  let onlineSecurity ← req "OnlineSecurity" ro.OnlineSecurity
  let onlineBackup ← req "OnlineBackup" ro.OnlineBackup
  let isMonthToMonth : ℚ := if contract = "Month-to-month" then 1 else 0
  let contractStability := ContractStability contract
  let isElectronicCheck : ℚ := if payment = "Electronic check" then 1 else 0
  let paymentStability := PaymentStability payment
  let financialRiskScore :=
    isMonthToMonth * 0.427 + isElectronicCheck * 0.453 +
      (1 - paymentStability) * 0.12
  let isNewCustomer : ℚ := if tenure ≤ 12 then 1 else 0
  let isVeryNewCustomer : ℚ := if tenure ≤ 3 then 1 else 0
  let tenureSegment : ℚ :=
    if tenure ≤ 3 then 0
    else if tenure ≤ 12 then 1
    else if tenure ≤ 24 then 2
    else if tenure ≤ 48 then 3
    else 4
  let lifecycleValue := tenure * monthly
  let revenueAcceleration := total / (tenure + 1) - monthly
  let hasTechSupport := yesInd techSupport
  let hasOnlineSecurity := yesInd onlineSecurity
  let hasBackup := yesInd onlineBackup
  let protectionScore :=
    yesInd onlineSecurity + yesInd onlineBackup +
      optYes ro.DeviceProtection + yesInd techSupport
  let fullyProtected : ℚ := if protectionScore = 4 then 1 else 0
  let noProtection : ℚ := if protectionScore = 0 then 1 else 0
  let internet ← req "InternetService" ro.InternetService
  let serviceVulnerability :=
    (if internet ≠ "No" then 1 else 0) * (1 - protectionScore / 4)
  let serviceCount :=
    optYes ro.PhoneService + (if internet ≠ "No" then 1 else 0) +
      yesInd onlineSecurity + yesInd onlineBackup +
      optYes ro.DeviceProtection + yesInd techSupport +
      optYes ro.StreamingTV + optYes ro.StreamingMovies
  let revenuePerService := monthly / (serviceCount + 1)
  let priceDeviation := monthly - avgMonthlyCharges
  let isPriceSensitive : ℚ :=
    if monthly < avgMonthlyCharges ∧ serviceCount < 4 then 1 else 0
  let estimatedMargin := monthly * 0.3 - serviceCount * 5
  let cumulativeProfit := estimatedMargin * tenure
  let digitalAdoption :=
    optYes ro.PaperlessBilling / 3 +
      (if containsAutomatic payment then 1 else 0) / 3 +
      yesInd onlineBackup / 3
  let isStreamingUser : ℚ :=
    match ro.StreamingTV, ro.StreamingMovies with
    | some tv, some mo => if tv = "Yes" ∨ mo = "Yes" then 1 else 0
    | _, _ => 0
  let isPureStreaming : ℚ :=
    if isStreamingUser = 1 ∧ internet = "Fiber optic" then 1 else 0
  let contractValueAlignment :=
    isMonthToMonth * (if monthly > avgMonthlyCharges then 1 else 0)
  let riskyNewCustomer := isNewCustomer * isMonthToMonth
  let vulnerableHighValue : ℚ :=
    if monthly > 70 ∧ noProtection = 1 then 1 else 0
  let unstableCustomer :=
    (isMonthToMonth + isElectronicCheck + isNewCustomer) / 3
  let earlyServiceOverload : ℚ :=
    if tenure < 6 ∧ serviceCount > 5 then 1 else 0
  let monthlyChargesZScore := (monthly - 64.76) / 30.09
  let totalChargesZScore := (total - 2283.30) / 2266.77
  let chargesPercentile := min (max (monthly / 118.75) 0) 1
  let tenurePercentile := min (max (tenure / 72) 0) 1
  let expectedTotalCharges := tenure * monthly
  let chargesConsistency := min (total / (expectedTotalCharges + 1)) 1
  let segmentName : ℚ :=
    if serviceCount ≤ 2 ∧ monthly < 40 then 0
    else if serviceCount ≥ 6 then 1
    else if tenure > 48 then 2
    else if isNewCustomer = 1 ∧ monthly < avgMonthlyCharges then 3
    else 4
  pure {
    IsMonthToMonth := isMonthToMonth
    ContractStability := contractStability
    IsElectronicCheck := isElectronicCheck
    PaymentStability := paymentStability
    FinancialRiskScore := financialRiskScore
    IsNewCustomer := isNewCustomer
    IsVeryNewCustomer := isVeryNewCustomer
    TenureSegment := tenureSegment
    LifecycleValue := lifecycleValue
    RevenueAcceleration := revenueAcceleration
    HasTechSupport := hasTechSupport
    HasOnlineSecurity := hasOnlineSecurity
    HasBackup := hasBackup
    ProtectionScore := protectionScore
    FullyProtected := fullyProtected
    NoProtection := noProtection
    ServiceVulnerability := serviceVulnerability
    ServiceCount := serviceCount
    RevenuePerService := revenuePerService
    PriceDeviation := priceDeviation
    IsPriceSensitive := isPriceSensitive
    EstimatedMargin := estimatedMargin
    CumulativeProfit := cumulativeProfit
    DigitalAdoption := digitalAdoption
    IsStreamingUser := isStreamingUser
    IsPureStreaming := isPureStreaming
    ContractValueAlignment := contractValueAlignment
    RiskyNewCustomer := riskyNewCustomer
    VulnerableHighValue := vulnerableHighValue
    UnstableCustomer := unstableCustomer
    EarlyServiceOverload := earlyServiceOverload
    MonthlyChargesZScore := monthlyChargesZScore
    TotalChargesZScore := totalChargesZScore
    ChargesPercentile := chargesPercentile
    TenurePercentile := tenurePercentile
    ExpectedTotalCharges := expectedTotalCharges
    ChargesConsistency := chargesConsistency
    DataSegment := 1
    SegmentName := segmentName }

end Dash

namespace Dash

/-! `ChurnPredictor.prepare_features_for_model` (lines 1121-1174): the
categorical encoder and the fixed-width 61-column row. -/

/-- The categorical columns the encoder considers (lines 1124-1127). -/
def categoricalCols : List String :=
  ["gender", "Partner", "Dependents", "PhoneService", "MultipleLines",
   "InternetService", "OnlineSecurity", "OnlineBackup", "DeviceProtection",
   "TechSupport", "StreamingTV", "StreamingMovies", "Contract",
   "PaperlessBilling", "PaymentMethod"]

/-- Encoding with a fitted lookup table (lines 1135-1141): the fitted
encoder raises `ValueError` on a value unseen during fitting, which the
`except` clause turns into the default code 0. -/
def encodeWithTable (t : List (String × ℤ)) (v : String) : ℤ :=
  match t.lookup v with
  | some c => c
  | none => 0

/-- `contract_map` with `.fillna(0)` (lines 1149-1150). -/
def contractMap (v : String) : ℤ :=
  if v = "Month-to-month" then 0
  else if v = "One year" then 1
  else if v = "Two year" then 2
  else 0

/-- `payment_map` with `.fillna(0)` (lines 1151-1158). -/
def paymentMap (v : String) : ℤ :=
  if v = "Electronic check" then 0
  else if v = "Mailed check" then 1
  else if v = "Bank transfer (automatic)" then 2
  else if v = "Credit card (automatic)" then 3
  else 0

/-- The catch-all service-column map with `.fillna(0)` (line 1161). -/
def serviceMap (v : String) : ℤ :=
  if v = "Yes" then 2
  else if v = "No" then 0
  else if v = "No internet service" then 1
  else if v = "No phone service" then 1
  else 0

/-- The static fallback encoder used when no fitted table is available for
a column (lines 1143-1161): dedicated cases for gender, the four yes/no
columns, Contract and PaymentMethod; every remaining categorical column
(the eight service columns) falls through to `serviceMap`. -/
def encodeStatic (col v : String) : ℤ :=
  if col = "gender" then (if v = "Female" then 1 else 0)
  else if col = "Partner" ∨ col = "Dependents" ∨ col = "PhoneService" ∨
      col = "PaperlessBilling" then (if v = "Yes" then 1 else 0)
  else if col = "Contract" then contractMap v
  else if col = "PaymentMethod" then paymentMap v
  else serviceMap v

/-- The service-type categorical columns: the members of `categoricalCols`
with no dedicated case in `encodeStatic`, i.e. the ones the catch-all
`serviceMap` branch handles. -/
def serviceTypeCols : List String :=
  ["MultipleLines", "InternetService", "OnlineSecurity", "OnlineBackup",
   "DeviceProtection", "TechSupport", "StreamingTV", "StreamingMovies"]

/-- `f'feature_{i}'` — the name of the i-th zero placeholder column
(line 1171). -/
def featureName (i : ℕ) : String := "feature_" ++ toString i

/-- `feature_cols = [col for col in df_encoded.columns if col not in
['customerID', 'Churn']]` (line 1164), on a row modelled as a list of
(column name, value) pairs. -/
def featureCols (row : List (String × ℚ)) : List (String × ℚ) :=
  row.filter (fun p => p.1 != "customerID" && p.1 != "Churn")

/-- The tail of `prepare_features_for_model` (lines 1163-1174): exclude
`customerID` and `Churn`, append zero-valued placeholder columns
`feature_i` for i from the current count up to 61, and return the first 61
feature columns. -/
def prepareRow (row : List (String × ℚ)) : List (String × ℚ) :=
  let fc := featureCols row
  (fc ++ ((List.range 61).drop fc.length).map (fun i => (featureName i, (0 : ℚ)))).take 61

end Dash

/-! Concrete records used as test inputs. -/

/-- The end-to-end example record of the spec (tenure 1, month-to-month,
electronic check, fiber optic, no protection services, paperless). -/
def exampleRec : CustomerRecord where
  gender := "Female"
  SeniorCitizen := 0
  Partner := "No"
  Dependents := "No"
  tenure := 1
  PhoneService := "Yes"
  MultipleLines := "No"
  InternetService := "Fiber optic"
  OnlineSecurity := "No"
  OnlineBackup := "No"
  DeviceProtection := "No"
  TechSupport := "No"
  StreamingTV := "No"
  StreamingMovies := "No"
  Contract := "Month-to-month"
  PaperlessBilling := "Yes"
  PaymentMethod := "Electronic check"
  MonthlyCharges := 70
  TotalCharges := 70

/-- A stable customer: two-year contract, automatic credit-card payment,
no internet, tenure 0. -/
def stableRec : CustomerRecord where
  gender := "Male"
  SeniorCitizen := 0
  Partner := "No"
  Dependents := "No"
  tenure := 0
  PhoneService := "Yes"
  MultipleLines := "No"
  InternetService := "No"
  OnlineSecurity := "No"
  OnlineBackup := "No"
  DeviceProtection := "No"
  TechSupport := "No"
  StreamingTV := "No"
  StreamingMovies := "No"
  Contract := "Two year"
  PaperlessBilling := "No"
  PaymentMethod := "Credit card (automatic)"
  MonthlyCharges := 50
  TotalCharges := 0

/-- `exampleRec` with a different monthly charge, used as a companion row
in dataset-dependence counterexamples. -/
def companionRec : CustomerRecord :=
  { exampleRec with MonthlyCharges := 100 }

/-- `exampleRec` with tenure 12, used to instantiate monotonicity. -/
def tenure12Rec : CustomerRecord :=
  { exampleRec with tenure := 12 }

/-! Helper lemmas shared by the claim theorems. -/

/-- A 0/1 indicator takes only the values 0 and 1. -/
lemma ite01_mem (c : Prop) [Decidable c] :
    (if c then (1 : ℚ) else 0) = 0 ∨ (if c then (1 : ℚ) else 0) = 1 := by
  by_cases h : c <;> simp [h]

/-- A 0/1 indicator lies in [0, 1]. -/
lemma ite01_bounds (c : Prop) [Decidable c] :
    0 ≤ (if c then (1 : ℚ) else 0) ∧ (if c then (1 : ℚ) else 0) ≤ 1 := by
  by_cases h : c <;> simp [h]

/-- `yesInd` takes only the values 0 and 1. -/
lemma yesInd_cases (s : String) : yesInd s = 0 ∨ yesInd s = 1 := by
  unfold yesInd; exact ite01_mem _

/-- A sum of four yes-indicators takes only the values 0..4. -/
lemma sumYes4_mem (a b c d : String) :
    yesInd a + yesInd b + yesInd c + yesInd d ∈ ({0, 1, 2, 3, 4} : Set ℚ) := by
  rcases yesInd_cases a with h1 | h1 <;> rcases yesInd_cases b with h2 | h2 <;>
    rcases yesInd_cases c with h3 | h3 <;> rcases yesInd_cases d with h4 | h4 <;>
      simp [h1, h2, h3, h4, Set.mem_insert_iff] <;> norm_num

/-- A sum of four yes-indicators lies in [0, 4]. -/
lemma sumYes4_bounds (a b c d : String) :
    0 ≤ yesInd a + yesInd b + yesInd c + yesInd d ∧
      yesInd a + yesInd b + yesInd c + yesInd d ≤ 4 := by
  rcases yesInd_cases a with h1 | h1 <;> rcases yesInd_cases b with h2 | h2 <;>
    rcases yesInd_cases c with h3 | h3 <;> rcases yesInd_cases d with h4 | h4 <;>
      rw [h1, h2, h3, h4] <;> norm_num

/-- The protection-count / fully-protected equivalence, at the level of the
underlying conditional. -/
lemma fullyProtected_iff (x : ℚ) : (if x = 4 then (1 : ℚ) else 0) = 1 ↔ x = 4 := by
  split_ifs with h <;> simp [h]

/-- C7: on the spec's end-to-end example record (tenure 1, month-to-month
contract, electronic-check payment, fiber-optic internet, no protection
services), the dashboard feature transform produces `IsMonthToMonth = 1`,
`IsElectronicCheck = 1`, `ProtectionScore = 0`, `NoProtection = 1`,
`ServiceVulnerability = 1`, and `FinancialRiskScore = 0.427 + 0.453 + 0.12
= 1`; the batch path agrees on this record. -/
theorem example_record_features :
    Dash.IsMonthToMonth exampleRec = 1 ∧
    Dash.IsElectronicCheck exampleRec = 1 ∧
    Dash.ProtectionScore exampleRec = 0 ∧
    Dash.NoProtection exampleRec = 1 ∧
    Dash.ServiceVulnerability exampleRec = 1 ∧
    Dash.FinancialRiskScore exampleRec = 0.427 + 0.453 + 0.12 ∧
    Dash.FinancialRiskScore exampleRec = 1 ∧
    Batch.ProtectionScore exampleRec = 0 ∧
    Batch.ServiceVulnerability exampleRec = 1 ∧
    Batch.FinancialRiskScore exampleRec = some 1 := by
  refine ⟨?_, ?_, ?_, ?_, ?_, ?_, ?_, ?_, ?_, ?_⟩ <;>
    simp [Dash.IsMonthToMonth, Dash.IsElectronicCheck, Dash.ProtectionScore,
      Dash.NoProtection, Dash.ServiceVulnerability, Dash.FinancialRiskScore,
      Dash.PaymentStability, Batch.ProtectionScore, Batch.ServiceVulnerability,
      Batch.FinancialRiskScore, Batch.PaymentStability, Batch.IsMonthToMonth,
      Batch.IsElectronicCheck, yesInd, exampleRec] <;> norm_num

/-- C9: for every customer record, `ProtectionScore` (the count of the four
protection services equal to "Yes") lies in {0,1,2,3,4}, and
`FullyProtected = 1` exactly when `ProtectionScore = 4`, in both the
dashboard and the batch path. -/
theorem protection_score_range :
    ∀ r : CustomerRecord,
      Dash.ProtectionScore r ∈ ({0, 1, 2, 3, 4} : Set ℚ) ∧
      (Dash.FullyProtected r = 1 ↔ Dash.ProtectionScore r = 4) ∧
      Batch.ProtectionScore r ∈ ({0, 1, 2, 3, 4} : Set ℚ) ∧
      (Batch.FullyProtected r = 1 ↔ Batch.ProtectionScore r = 4) := by
  intro r
  refine ⟨sumYes4_mem _ _ _ _, ?_, sumYes4_mem _ _ _ _, ?_⟩
  · unfold Dash.FullyProtected; exact fullyProtected_iff _
  · unfold Batch.FullyProtected; exact fullyProtected_iff _

/-- C8: in both paths `TenureRisk = exp(-tenure/12)`; it is strictly
decreasing in tenure; for tenure ≥ 0 it lies in (0, 1]; and at tenure 0 it
equals 1. -/
theorem tenure_risk_decay :
    (∀ r : CustomerRecord,
      Dash.TenureRisk r = Real.exp (-(r.tenure : ℝ) / 12) ∧
      Batch.TenureRisk r = Real.exp (-(r.tenure : ℝ) / 12)) ∧
    (∀ r₁ r₂ : CustomerRecord, r₁.tenure < r₂.tenure →
      Dash.TenureRisk r₂ < Dash.TenureRisk r₁) ∧
    (∀ r : CustomerRecord, 0 ≤ r.tenure →
      0 < Dash.TenureRisk r ∧ Dash.TenureRisk r ≤ 1) ∧
    (∀ r : CustomerRecord, r.tenure = 0 → Dash.TenureRisk r = 1) := by
  refine ⟨fun r => ⟨rfl, rfl⟩, ?_, ?_, ?_⟩
  · intro r₁ r₂ h
    have hc : (r₁.tenure : ℝ) < (r₂.tenure : ℝ) := by exact_mod_cast h
    unfold Dash.TenureRisk
    exact Real.exp_lt_exp.mpr (by linarith)
  · intro r h
    have hc : (0 : ℝ) ≤ (r.tenure : ℝ) := by exact_mod_cast h
    unfold Dash.TenureRisk
    refine ⟨Real.exp_pos _, ?_⟩
    calc Real.exp (-(r.tenure : ℝ) / 12) ≤ Real.exp 0 :=
          Real.exp_le_exp.mpr (by linarith)
      _ = 1 := Real.exp_zero
  · intro r h
    unfold Dash.TenureRisk
    rw [h]
    norm_num

/-- Witness for C8 at concrete records: tenure 12 versus tenure 1, and
tenure 0. -/
theorem tenure_risk_decay_witness :
    exampleRec.tenure < tenure12Rec.tenure ∧
    Dash.TenureRisk tenure12Rec < Dash.TenureRisk exampleRec ∧
    0 ≤ exampleRec.tenure ∧
    (0 < Dash.TenureRisk exampleRec ∧ Dash.TenureRisk exampleRec ≤ 1) ∧
    stableRec.tenure = 0 ∧
    Dash.TenureRisk stableRec = 1 :=
  ⟨by norm_num [exampleRec, tenure12Rec],
   tenure_risk_decay.2.1 exampleRec tenure12Rec (by norm_num [exampleRec, tenure12Rec]),
   by norm_num [exampleRec],
   tenure_risk_decay.2.2.1 exampleRec (by norm_num [exampleRec]),
   by norm_num [stableRec],
   tenure_risk_decay.2.2.2 stableRec (by norm_num [stableRec])⟩

/-- C1: the batch composite uses the weights 0.35/0.25/0.20/0.10/0.10 over
(FinancialRiskScore, TenureRisk, ServiceVulnerability, 1 − DigitalAdoption,
UnstableCustomer), the dashboard composite uses 0.3/0.2/0.2/0.15/0.15 over
(FinancialRiskScore, TenureRisk, ServiceVulnerability, UnstableCustomer,
1 − ProtectionScore/4), and the two functions disagree: on `stableRec` the
batch composite is 0.325 while the dashboard composite is 0.4. -/
theorem churn_risk_score_paths_diverge :
    (∀ r : CustomerRecord, Batch.ChurnRiskScore r =
      (Batch.FinancialRiskScore r).map (fun f =>
        (f : ℝ) * 0.35 + Batch.TenureRisk r * 0.25 +
          (Batch.ServiceVulnerability r : ℝ) * 0.2 +
          (1 - (Batch.DigitalAdoption r : ℝ)) * 0.1 +
          (Batch.UnstableCustomer r : ℝ) * 0.1)) ∧
    (∀ r : CustomerRecord, Dash.ChurnRiskScore r =
      (Dash.FinancialRiskScore r : ℝ) * 0.3 + Dash.TenureRisk r * 0.2 +
        (Dash.ServiceVulnerability r : ℝ) * 0.2 +
        (Dash.UnstableCustomer r : ℝ) * 0.15 +
        (1 - (Dash.ProtectionScore r : ℝ) / 4) * 0.15) ∧
    (∃ (r : CustomerRecord) (x : ℝ),
      Batch.ChurnRiskScore r = some x ∧ x ≠ Dash.ChurnRiskScore r) := by
  refine ⟨fun r => rfl, fun r => rfl, stableRec, 0.325, ?_, ?_⟩
  · simp [Batch.ChurnRiskScore, Batch.FinancialRiskScore, Batch.PaymentStability,
      Batch.IsMonthToMonth, Batch.IsElectronicCheck, Batch.TenureRisk,
      Batch.ServiceVulnerability, Batch.ProtectionScore, Batch.DigitalAdoption,
      Batch.UnstableCustomer, Batch.autoPayments, yesInd, stableRec]
    norm_num [Real.exp_zero]
  · have hd : Dash.ChurnRiskScore stableRec = 0.4 := by
      simp [Dash.ChurnRiskScore, Dash.FinancialRiskScore, Dash.PaymentStability,
        Dash.IsMonthToMonth, Dash.IsElectronicCheck, Dash.TenureRisk,
        Dash.ServiceVulnerability, Dash.ProtectionScore, Dash.UnstableCustomer,
        Dash.IsNewCustomer, yesInd, stableRec]
      norm_num [Real.exp_zero]
    rw [hd]
    norm_num

/-- C2 counterexample: the batch feature `ChargesPercentile` of the very
same record changes when a second record is present in the dataset, so the
batch transform is not a pure function of the single input record. -/
theorem batch_percentile_depends_on_dataset :
    Batch.ChargesPercentile exampleRec [exampleRec] = 1 ∧
    Batch.ChargesPercentile exampleRec [exampleRec, companionRec] = 1 / 2 ∧
    Batch.ChargesPercentile exampleRec [exampleRec] ≠
      Batch.ChargesPercentile exampleRec [exampleRec, companionRec] := by
  have h1 : Batch.ChargesPercentile exampleRec [exampleRec] = 1 := by
    norm_num [Batch.ChargesPercentile, exampleRec, List.filter_cons, List.filter_nil]
  have h2 : Batch.ChargesPercentile exampleRec [exampleRec, companionRec] = 1 / 2 := by
    norm_num [Batch.ChargesPercentile, exampleRec, companionRec,
      List.filter_cons, List.filter_nil]
  refine ⟨h1, h2, ?_⟩
  rw [h1, h2]
  norm_num

/-- C2 (amended): the dashboard transform is a pure deterministic function
of the single record — computing it twice yields identical feature
vectors — but the batch path is not: its `ChargesPercentile` (likewise the
z-scores and `PriceDeviation`) depends on the other records present in the
dataset. -/
theorem feature_transform_purity :
    (∀ r : CustomerRecord, Dash.engineerFeatures r = Dash.engineerFeatures r) ∧
    (∃ (r : CustomerRecord) (ds₁ ds₂ : List CustomerRecord),
      r ∈ ds₁ ∧ r ∈ ds₂ ∧
      Batch.ChargesPercentile r ds₁ ≠ Batch.ChargesPercentile r ds₂) := by
  refine ⟨fun r => rfl, exampleRec, [exampleRec], [exampleRec, companionRec],
    List.mem_singleton_self _, List.mem_cons_self _ _, ?_⟩
  have h1 : Batch.ChargesPercentile exampleRec [exampleRec] = 1 := by
    norm_num [Batch.ChargesPercentile, exampleRec, List.filter_cons, List.filter_nil]
  have h2 : Batch.ChargesPercentile exampleRec [exampleRec, companionRec] = 1 / 2 := by
    norm_num [Batch.ChargesPercentile, exampleRec, companionRec,
      List.filter_cons, List.filter_nil]
  rw [h1, h2]
  norm_num

/-- C3 counterexample: a record missing the raw attribute
`DeviceProtection` does not abort — the transform silently produces a
feature vector (with `DeviceProtection` simply not counted), because the
only accesses to that column sit behind `if col in df.columns` guards. -/
theorem missing_device_protection_tolerated :
    (Dash.engineerFeaturesE
      { CustomerRecord.toOpt exampleRec with DeviceProtection := none }).isOk = true := rfl

/-- C3 (amended): a record missing one of the nine unguarded attributes
(Contract, PaymentMethod, tenure, MonthlyCharges, TotalCharges,
TechSupport, OnlineSecurity, OnlineBackup, InternetService) aborts with a
KeyError naming that attribute; but a record missing one of the guarded
attributes (DeviceProtection, PhoneService, StreamingTV, StreamingMovies,
PaperlessBilling) or an attribute the transform never reads (e.g. gender)
is silently tolerated and a feature vector is produced. -/
theorem missing_attribute_behaviour :
    ∀ r : CustomerRecord,
      Dash.engineerFeaturesE { r.toOpt with Contract := none } =
        Except.error "Contract" ∧
      Dash.engineerFeaturesE { r.toOpt with PaymentMethod := none } =
        Except.error "PaymentMethod" ∧
      Dash.engineerFeaturesE { r.toOpt with tenure := none } =
        Except.error "tenure" ∧
      Dash.engineerFeaturesE { r.toOpt with MonthlyCharges := none } =
        Except.error "MonthlyCharges" ∧
      Dash.engineerFeaturesE { r.toOpt with TotalCharges := none } =
        Except.error "TotalCharges" ∧
      Dash.engineerFeaturesE { r.toOpt with TechSupport := none } =
        Except.error "TechSupport" ∧
      Dash.engineerFeaturesE { r.toOpt with OnlineSecurity := none } =
        Except.error "OnlineSecurity" ∧
      Dash.engineerFeaturesE { r.toOpt with OnlineBackup := none } =
        Except.error "OnlineBackup" ∧
      Dash.engineerFeaturesE { r.toOpt with InternetService := none } =
        Except.error "InternetService" ∧
      (Dash.engineerFeaturesE { r.toOpt with DeviceProtection := none }).isOk = true ∧
      (Dash.engineerFeaturesE { r.toOpt with PhoneService := none }).isOk = true ∧
      (Dash.engineerFeaturesE { r.toOpt with StreamingTV := none }).isOk = true ∧
      (Dash.engineerFeaturesE { r.toOpt with StreamingMovies := none }).isOk = true ∧
      (Dash.engineerFeaturesE { r.toOpt with PaperlessBilling := none }).isOk = true ∧
      (Dash.engineerFeaturesE { r.toOpt with gender := none }).isOk = true := by
  intro r
  exact ⟨rfl, rfl, rfl, rfl, rfl, rfl, rfl, rfl, rfl, rfl, rfl, rfl, rfl, rfl, rfl⟩

/-- The known contract values of both mapping tables. -/
def knownContracts : List String := ["Month-to-month", "One year", "Two year"]

/-- The known payment methods of both mapping tables. -/
def knownPayments : List String :=
  ["Electronic check", "Mailed check", "Bank transfer (automatic)",
   "Credit card (automatic)"]

/-- C4 counterexample: in the batch path the `.map` has no `fillna`, so an
unknown payment method yields a missing value (NaN), not the claimed 0 —
and likewise for an unknown contract. -/
theorem batch_unknown_category_not_zero :
    Batch.PaymentStability "Crypto" = none ∧
    Batch.PaymentStability "Crypto" ≠ some 0 ∧
    Batch.ContractStability "Lease" = none ∧
    Batch.ContractStability "Lease" ≠ some 0 := by
  refine ⟨?_, ?_, ?_, ?_⟩ <;>
    simp [Batch.PaymentStability, Batch.ContractStability]

/-- C4 (amended): in the dashboard path (`.fillna(0)`) an unknown
categorical value defaults to 0 without raising — unknown `PaymentMethod`
gives `PaymentStability = 0` and unknown `Contract` gives
`ContractStability = 0` — while in the batch path the same `.map` without
`fillna` yields a missing value (NaN, modelled `none`) instead of 0. -/
theorem unknown_category_defaults :
    (∀ c : String, c ∉ knownContracts → Dash.ContractStability c = 0) ∧
    (∀ p : String, p ∉ knownPayments → Dash.PaymentStability p = 0) ∧
    (∀ c : String, c ∉ knownContracts → Batch.ContractStability c = none) ∧
    (∀ p : String, p ∉ knownPayments → Batch.PaymentStability p = none) := by
  refine ⟨?_, ?_, ?_, ?_⟩
  · intro c h
    simp [knownContracts] at h
    obtain ⟨h1, h2, h3⟩ := h
    simp [Dash.ContractStability, h1, h2, h3]
  · intro p h
    simp [knownPayments] at h
    obtain ⟨h1, h2, h3, h4⟩ := h
    simp [Dash.PaymentStability, h1, h2, h3, h4]
  · intro c h
    simp [knownContracts] at h
    obtain ⟨h1, h2, h3⟩ := h
    simp [Batch.ContractStability, h1, h2, h3]
  · intro p h
    simp [knownPayments] at h
    obtain ⟨h1, h2, h3, h4⟩ := h
    simp [Batch.PaymentStability, h1, h2, h3, h4]

/-- Witness for C4 at the concrete unknown values "Crypto" and "Lease". -/
theorem unknown_category_defaults_witness :
    "Lease" ∉ knownContracts ∧ Dash.ContractStability "Lease" = 0 ∧
    "Crypto" ∉ knownPayments ∧ Dash.PaymentStability "Crypto" = 0 ∧
    Batch.ContractStability "Lease" = none ∧
    Batch.PaymentStability "Crypto" = none :=
  ⟨by decide, unknown_category_defaults.1 "Lease" (by decide),
   by decide, unknown_category_defaults.2.1 "Crypto" (by decide),
   unknown_category_defaults.2.2.1 "Lease" (by decide),
   unknown_category_defaults.2.2.2 "Crypto" (by decide)⟩

/-- C5 counterexample: `Contract` is not one of the service-type columns,
yet the static fallback does not apply the three-way Yes/No/"No … service"
mapping to it — it uses the dedicated contract map, so the value "Yes"
encodes to 0 where the three-way mapping would give 2. -/
theorem contract_not_three_way_encoded :
    "Contract" ∉ Dash.serviceTypeCols ∧
    Dash.encodeStatic "Contract" "Yes" = 0 ∧
    Dash.serviceMap "Yes" = 2 ∧
    Dash.encodeStatic "Contract" "Yes" ≠ Dash.serviceMap "Yes" := by
  refine ⟨by decide, by decide, by decide, by decide⟩

/-- C5 (amended): (a) with a fitted lookup table, a value unseen during
fitting encodes to the default code 0 (the `ValueError` branch) —
deterministically, the encoder being a pure function; (b) without a fitted
table, the static fallback gives the columns that have no dedicated case,
namely the eight service-type columns, the three-way mapping Yes→2, No→0,
"No internet service"→1, "No phone service"→1 (anything else 0), while
gender, Partner, Dependents, PhoneService, PaperlessBilling, Contract and
PaymentMethod use their dedicated maps. -/
theorem categorical_encoder_fallbacks :
    (∀ (t : List (String × ℤ)) (v : String), t.lookup v = none →
      Dash.encodeWithTable t v = 0) ∧
    (∀ col v : String, col ∈ Dash.serviceTypeCols →
      Dash.encodeStatic col v = Dash.serviceMap v) ∧
    Dash.serviceMap "Yes" = 2 ∧ Dash.serviceMap "No" = 0 ∧
    Dash.serviceMap "No internet service" = 1 ∧
    Dash.serviceMap "No phone service" = 1 := by
  refine ⟨?_, ?_, by decide, by decide, by decide, by decide⟩
  · intro t v h
    simp [Dash.encodeWithTable, h]
  · intro col v h
    fin_cases h <;> rfl

/-- Witness for C5: a concrete fitted table missing the value "Unseen",
and the service-type column `TechSupport` with an arbitrary value. -/
theorem categorical_encoder_fallbacks_witness :
    ([("Female", (1 : ℤ))].lookup "Unseen" = none) ∧
    Dash.encodeWithTable [("Female", (1 : ℤ))] "Unseen" = 0 ∧
    "TechSupport" ∈ Dash.serviceTypeCols ∧
    Dash.encodeStatic "TechSupport" "Maybe" = Dash.serviceMap "Maybe" :=
  ⟨by decide, categorical_encoder_fallbacks.1 _ "Unseen" (by decide),
   by decide, categorical_encoder_fallbacks.2.1 _ "Maybe" (by decide)⟩

/-- A sample encoded row: an identity column, a label column and one
feature column. -/
def sampleRow : List (String × ℚ) :=
  [("customerID", 1), ("Churn", 0), ("MonthlyCharges", 70)]

/-- C6: `prepare_features_for_model` always returns exactly 61 feature
columns (after excluding `customerID` and `Churn`), and when fewer than 61
feature columns exist it appends precisely the zero-valued placeholder
columns `feature_i` up to the expected count. -/
theorem sixty_one_feature_columns :
    ∀ row : List (String × ℚ),
      (Dash.prepareRow row).length = 61 ∧
      ((Dash.featureCols row).length < 61 →
        Dash.prepareRow row = Dash.featureCols row ++
          ((List.range 61).drop (Dash.featureCols row).length).map
            (fun i => (Dash.featureName i, (0 : ℚ)))) := by
  intro row
  constructor
  · unfold Dash.prepareRow
    rw [List.length_take, List.length_append, List.length_map, List.length_drop,
      List.length_range]
    omega
  · intro h
    unfold Dash.prepareRow
    apply List.take_of_length_le
    rw [List.length_append, List.length_map, List.length_drop, List.length_range]
    omega

/-- Witness for C6: a row with one real feature column is padded with the
60 zero placeholders. -/
theorem sixty_one_feature_columns_witness :
    (Dash.featureCols sampleRow).length < 61 ∧
    Dash.prepareRow sampleRow = Dash.featureCols sampleRow ++
      ((List.range 61).drop (Dash.featureCols sampleRow).length).map
        (fun i => (Dash.featureName i, (0 : ℚ))) :=
  ⟨by decide, (sixty_one_feature_columns sampleRow).2 (by decide)⟩

/-- The dashboard payment-stability map always lands in [0, 1]. -/
lemma paymentStability_bounds (p : String) :
    0 ≤ Dash.PaymentStability p ∧ Dash.PaymentStability p ≤ 1 := by
  unfold Dash.PaymentStability
  split_ifs <;> norm_num

/-- The dashboard financial risk score lies in [0, 1]. -/
lemma financialRiskScore_bounds (r : CustomerRecord) :
    0 ≤ Dash.FinancialRiskScore r ∧ Dash.FinancialRiskScore r ≤ 1 := by
  obtain ⟨hp0, hp1⟩ := paymentStability_bounds r.PaymentMethod
  unfold Dash.FinancialRiskScore Dash.IsMonthToMonth Dash.IsElectronicCheck
  rcases ite01_mem (r.Contract = "Month-to-month") with h1 | h1 <;>
    rcases ite01_mem (r.PaymentMethod = "Electronic check") with h2 | h2 <;>
      rw [h1, h2] <;> constructor <;> linarith

/-- The protection-score summand `1 - ProtectionScore/4` lies in [0, 1]. -/
lemma protection_term_bounds (r : CustomerRecord) :
    0 ≤ 1 - Dash.ProtectionScore r / 4 ∧ 1 - Dash.ProtectionScore r / 4 ≤ 1 := by
  have h := sumYes4_bounds r.OnlineSecurity r.OnlineBackup
    r.DeviceProtection r.TechSupport
  unfold Dash.ProtectionScore
  constructor <;> linarith [h.1, h.2]

/-- The dashboard service vulnerability lies in [0, 1]. -/
lemma serviceVulnerability_bounds (r : CustomerRecord) :
    0 ≤ Dash.ServiceVulnerability r ∧ Dash.ServiceVulnerability r ≤ 1 := by
  have h := sumYes4_bounds r.OnlineSecurity r.OnlineBackup
    r.DeviceProtection r.TechSupport
  unfold Dash.ServiceVulnerability Dash.ProtectionScore
  rcases ite01_mem (r.InternetService ≠ "No") with h1 | h1 <;> rw [h1]
  · norm_num
  · rw [one_mul]; constructor <;> linarith [h.1, h.2]

/-- The dashboard `UnstableCustomer` mean lies in [0, 1]. -/
lemma unstableCustomer_bounds (r : CustomerRecord) :
    0 ≤ Dash.UnstableCustomer r ∧ Dash.UnstableCustomer r ≤ 1 := by
  unfold Dash.UnstableCustomer Dash.IsMonthToMonth Dash.IsElectronicCheck
    Dash.IsNewCustomer
  rcases ite01_mem (r.Contract = "Month-to-month") with h1 | h1 <;>
    rcases ite01_mem (r.PaymentMethod = "Electronic check") with h2 | h2 <;>
      rcases ite01_mem (r.tenure ≤ 12) with h3 | h3 <;>
        rw [h1, h2, h3] <;> norm_num

/-- For nonnegative tenure the dashboard `TenureRisk` lies in (0, 1]. -/
lemma tenureRisk_bounds (r : CustomerRecord) (h : 0 ≤ r.tenure) :
    0 < Dash.TenureRisk r ∧ Dash.TenureRisk r ≤ 1 := by
  have hc : (0 : ℝ) ≤ (r.tenure : ℝ) := by exact_mod_cast h
  unfold Dash.TenureRisk
  refine ⟨Real.exp_pos _, ?_⟩
  calc Real.exp (-(r.tenure : ℝ) / 12) ≤ Real.exp 0 :=
        Real.exp_le_exp.mpr (by linarith)
    _ = 1 := Real.exp_zero

/-- For nonnegative tenure the dashboard composite lies in [0, 1]. -/
lemma churnRiskScore_bounds (r : CustomerRecord) (h : 0 ≤ r.tenure) :
    0 ≤ Dash.ChurnRiskScore r ∧ Dash.ChurnRiskScore r ≤ 1 := by
  obtain ⟨hF0, hF1⟩ := financialRiskScore_bounds r
  obtain ⟨hS0, hS1⟩ := serviceVulnerability_bounds r
  obtain ⟨hU0, hU1⟩ := unstableCustomer_bounds r
  obtain ⟨hP0, hP1⟩ := protection_term_bounds r
  obtain ⟨hT0, hT1⟩ := tenureRisk_bounds r h
  have cF0 : (0 : ℝ) ≤ (Dash.FinancialRiskScore r : ℝ) := by exact_mod_cast hF0
  have cF1 : (Dash.FinancialRiskScore r : ℝ) ≤ 1 := by exact_mod_cast hF1
  have cS0 : (0 : ℝ) ≤ (Dash.ServiceVulnerability r : ℝ) := by exact_mod_cast hS0
  have cS1 : (Dash.ServiceVulnerability r : ℝ) ≤ 1 := by exact_mod_cast hS1
  have cU0 : (0 : ℝ) ≤ (Dash.UnstableCustomer r : ℝ) := by exact_mod_cast hU0
  have cU1 : (Dash.UnstableCustomer r : ℝ) ≤ 1 := by exact_mod_cast hU1
  have cP : ((1 - Dash.ProtectionScore r / 4 : ℚ) : ℝ) =
      1 - (Dash.ProtectionScore r : ℝ) / 4 := by push_cast; ring
  have cP0 : (0 : ℝ) ≤ 1 - (Dash.ProtectionScore r : ℝ) / 4 := by
    rw [← cP]; exact_mod_cast hP0
  have cP1 : 1 - (Dash.ProtectionScore r : ℝ) / 4 ≤ 1 := by
    rw [← cP]; exact_mod_cast hP1
  unfold Dash.ChurnRiskScore
  constructor <;> nlinarith [hT0, hT1]

/-- The risk-category ladder only produces the codes 0, 1 and 2. -/
lemma riskCategory_mem (r : CustomerRecord) :
    Dash.RiskCategory r ∈ ({0, 1, 2} : Set ℤ) := by
  unfold Dash.RiskCategory
  split_ifs <;> simp

/-- C10: for every record with nonnegative tenure, each summand of the
dashboard `ChurnRiskScore` (`FinancialRiskScore`, `TenureRisk`,
`ServiceVulnerability`, `UnstableCustomer`, `1 − ProtectionScore/4`) lies
in [0, 1], the weights sum to 1, hence the composite lies in [0, 1] and
the threshold ladder always assigns a `RiskCategory` in {0, 1, 2}. -/
theorem dashboard_risk_score_invariant :
    ∀ r : CustomerRecord, 0 ≤ r.tenure →
      (0 ≤ Dash.FinancialRiskScore r ∧ Dash.FinancialRiskScore r ≤ 1) ∧
      (0 < Dash.TenureRisk r ∧ Dash.TenureRisk r ≤ 1) ∧
      (0 ≤ Dash.ServiceVulnerability r ∧ Dash.ServiceVulnerability r ≤ 1) ∧
      (0 ≤ Dash.UnstableCustomer r ∧ Dash.UnstableCustomer r ≤ 1) ∧
      (0 ≤ 1 - Dash.ProtectionScore r / 4 ∧ 1 - Dash.ProtectionScore r / 4 ≤ 1) ∧
      ((0.3 : ℝ) + 0.2 + 0.2 + 0.15 + 0.15 = 1) ∧
      (0 ≤ Dash.ChurnRiskScore r ∧ Dash.ChurnRiskScore r ≤ 1) ∧
      Dash.RiskCategory r ∈ ({0, 1, 2} : Set ℤ) := by
  intro r h
  exact ⟨financialRiskScore_bounds r, tenureRisk_bounds r h,
    serviceVulnerability_bounds r, unstableCustomer_bounds r,
    protection_term_bounds r, by norm_num, churnRiskScore_bounds r h,
    riskCategory_mem r⟩

/-- Witness for C10 at the concrete record `stableRec` (tenure 0). -/
theorem dashboard_risk_score_invariant_witness :
    0 ≤ stableRec.tenure ∧
    (0 ≤ Dash.ChurnRiskScore stableRec ∧ Dash.ChurnRiskScore stableRec ≤ 1) ∧
    Dash.RiskCategory stableRec ∈ ({0, 1, 2} : Set ℤ) :=
  ⟨by norm_num [stableRec],
   (dashboard_risk_score_invariant stableRec (by norm_num [stableRec])).2.2.2.2.2.2.1,
   (dashboard_risk_score_invariant stableRec (by norm_num [stableRec])).2.2.2.2.2.2.2⟩
